import Mathlib

/-!
Shallow embedding of the `unrust` render-engine core:
`src/engine/engine.rs` (entity traversal, material/program/texture state
diffing, light resolution, object rendering, end-of-pass pruning) and
`src/engine/render/mesh.rs` (lazy GPU buffer materialization).

Modelling conventions:
* `f32` values are embedded as `ℚ` (the engine performs only field
  arithmetic on them); `u32`/`u64` counters and identities are `Nat`,
  with `u32` increments taken modulo `2 ^ 32`.
* `Rc`/`Arc` reference identity (`Rc::ptr_eq`) is embedded as equality of
  `Nat` resource ids: two handles are the same pointer iff they carry the
  same id.
* `Weak<RefCell<GameObject>>` is embedded as `Option GameObject`: `none`
  is a dead weak reference (upgrade fails), `some o` a live one.
* The `WebGLRenderingContext` is external (the `webgl` crate); it is
  embedded as a clear-color register (`GLState`) plus a trace of issued
  GL operations (`GLOp`), in issue order.
* Panics (`unwrap` on `None`) are embedded as `Except RenderPanic`.
* Interior mutability (`RefCell`) becomes explicit state passing.
-/

/-- Vector3 of f32, embedded over ℚ (nalgebra is an external math library). -/
structure Vec3 where
  x : ℚ
  y : ℚ
  z : ℚ
deriving DecidableEq

/-- RGBA clear color (the four `f32` arguments of `gl.clear_color`). -/
structure Color where
  r : ℚ
  g : ℚ
  b : ℚ
  a : ℚ
deriving DecidableEq

/-- Homogeneous 4x4 matrix (nalgebra `Matrix4<f32>`), embedded over ℚ. -/
abbrev Mat4 := Matrix (Fin 4) (Fin 4) ℚ

/-- Increment of a `u32` counter (`ctx.switch_prog += 1` etc.). The wrap at
`2 ^ 32` is immaterial to the claims, which concern single increments. -/
def u32succ (n : Nat) : Nat := (n + 1) % 4294967296

/-- Floor square root of a natural number, by counting the positive `k` with
`k * k ≤ n` (a structurally recursive formulation, exact on squares). -/
def natSqrtE (n : Nat) : Nat :=
  (List.range (n + 1)).countP fun k => decide (k * k ≤ n) && decide (0 < k)

/-- Square root of a nonnegative rational, exact whenever the argument is the
square of a rational (`sqrt (num * den) / den`); used to embed nalgebra's
`normalize`, whose only call site here has a rational norm (3/2). -/
def ratSqrt (q : ℚ) : ℚ := (natSqrtE (q.num.toNat * q.den) : ℚ) / (q.den : ℚ)

/-- Squared euclidean norm of a `Vec3`. -/
def normSq (v : Vec3) : ℚ := v.x * v.x + v.y * v.y + v.z * v.z

/-- Embedding of nalgebra `Vector3::normalize`: divide by the norm. -/
def vnormalize (v : Vec3) : Vec3 :=
  let n := ratSqrt (normSq v)
  ⟨v.x / n, v.y / n, v.z / n⟩

/-- Directional light payload (fields read by `Engine::render_object`). -/
structure DirectionalLight where
  direction : Vec3
  ambient : Vec3
  diffuse : Vec3
  specular : Vec3
deriving DecidableEq

/-- Modelled from the spec: the `Point` variant of the `Light` component
(`src/engine`'s core component definitions are not under `src/`); the spec
lists the variants as `Directional | Point`. Its payload is irrelevant to the
engine pass, which only ever extracts the directional payload. -/
structure PointLight where
  position : Vec3
deriving DecidableEq

/-- Modelled from the spec: the `Light` component variants
(`Directional | Point`). The `Directional` constructor also appears directly
in `src/src/engine/engine.rs` (default-light synthesis). -/
inductive Light where
  | directional (d : DirectionalLight)
  | point (p : PointLight)
deriving DecidableEq

/-- Modelled from the spec: the accessor `Light::directional()` used at
`engine.rs:125` (`light_br.directional().unwrap()`), which yields the
directional payload or nothing for a non-directional light. -/
def Light.directional? : Light → Option DirectionalLight
  | Light.directional d => some d
  | Light.point _ => none

/-- Material: a shader program handle plus a texture handle
(`material.program`, `material.texture`); both are `Rc` resources embedded
as ids. The name-to-parameter map is not read by the render pass (the pass
hard-codes `uShininess`), so it is omitted. -/
structure Material where
  program : Nat
  texture : Nat
deriving DecidableEq

/-- Raw mesh data (`MeshBuffer` of `src/engine/render/mesh.rs`): vertex,
optional uv, optional normal, and index arrays. Indices are `u16` values,
embedded as `Nat`. -/
structure MeshBuffer where
  vertices : List ℚ
  uvs : Option (List ℚ)
  normals : Option (List ℚ)
  indices : List Nat
deriving DecidableEq

/-- Payload of a component, by capability (the closed set of component kinds
the render pass looks up: Mesh, Material, Light). -/
inductive ComponentData where
  | mesh (m : MeshBuffer)
  | material (m : Material)
  | light (l : Light)
deriving DecidableEq

/-- Modelled from the spec: a component is a capability-tagged polymorphic
value with a stable per-instance identity (`Component::id()`, a `u64` used
only for mesh change-detection). The component type itself lives outside
`src/`; its id and capability-downcast behavior are as the spec describes. -/
structure Component where
  id : Nat
  data : ComponentData
deriving DecidableEq

/-- GameObject (`engine.rs:250`): rigid pose, non-uniform scale, ordered
component list. The `Isometry3` pose is embedded by its homogeneous 4x4
matrix (the pass only ever uses `transform.to_homogeneous()`). -/
structure GameObject where
  transform : Mat4
  scale : Vec3
  components : List Component

/-- Modelled from the spec: the Camera fields the render pass reads — view
matrix `v`, projection matrix `p`, and eye position `eye()` (the camera type
lives outside `src/`). -/
structure Camera where
  v : Mat4
  p : Mat4
  eye : Vec3

/-- Uniform names the pass sets (string constants in `engine.rs`); `dir*`
stand for the `uDirectionalLight.*` fields. -/
inductive UName where
  | uMVMatrix
  | uPMatrix
  | uNMatrix
  | uMMatrix
  | uViewPos
  | uShininess
  | dirDirection
  | dirAmbient
  | dirDiffuse
  | dirSpecular
deriving DecidableEq

/-- Attribute names `Mesh::bind` queries via `program.get_coord`. -/
inductive AttrName where
  | aVertexPosition
  | aVertexNormal
  | aTextureCoord
deriving DecidableEq

/-- Values written to uniforms. -/
inductive UniformValue where
  | mat4 (m : Mat4)
  | vec3 (v : Vec3)
  | float (q : ℚ)

/-- WebGL buffer kinds used by `mesh.rs` (`BufferKind::Array` /
`BufferKind::ElementArray`). -/
inductive BufferKind where
  | array
  | elementArray
deriving DecidableEq

/-- One GL call, as issued to the context. `clearColorBuffer c` records a
color-buffer clear performed while `c` was the clear color in effect;
`bindMeshBuffers` abstracts `Mesh::bind` at the engine level (its buffer-level
trace is modelled separately with the mesh embedding below). -/
inductive GLOp where
  | clearColorBuffer (c : Color)
  | clearDepthBuffer
  | setClearColor (c : Color)
  | enableDepthTest
  | enableBlend
  | blendFuncAlpha
  | viewport (x y w h : Nat)
  | useProgram (p : Nat)
  | bindTexture (t : Nat) (prog : Nat) (ok : Bool)
  | setUniform (prog : Nat) (name : UName) (v : UniformValue)
  | bindMeshBuffers (meshComId : Nat)
  | commit (prog : Nat)
  | drawElements (count : Nat)
  | createBuffer (id : Nat)
  | bindBuffer (k : BufferKind) (id : Nat)
  | unbindBuffer (k : BufferKind)
  | bufferData (k : BufferKind) (byteLen : Nat)
  | vertexAttribPointer (coord : Nat) (size : Nat)

/-- Modelled GL-context state the engine core depends on: the clear-color
register (set by `gl.clear_color`, consumed by `gl.clear(Color)`). -/
structure GLState where
  clearColor : Color
deriving DecidableEq

/-- The clear color `(0.2, 0.2, 0.2, 1.0)` set by `Engine::clear`. -/
def clear02 : Color := ⟨1/5, 1/5, 1/5, 1⟩

/-- The clear color `(0.5, 0.5, 0.5, 1.0)` set by `Engine::new`. -/
def clear05 : Color := ⟨1/2, 1/2, 1/2, 1⟩

/-- Per-frame render context (`EngineContext`, `engine.rs:38`): currently
bound mesh identity / program / texture, the resolved light component, and
the three switch counters. -/
structure EngineContext where
  mesh : Option Nat
  prog : Option Nat
  tex : Option Nat
  light : Option Component
  switch_mesh : Nat
  switch_prog : Nat
  switch_tex : Nat
deriving DecidableEq

/-- Engine state relevant to the render pass (`Engine`, `engine.rs:24`):
GL state, optional main camera, and the weakly tracked object list. The
program cache, asset system and gui context are never read by the pass. -/
structure Engine where
  gl : GLState
  main_camera : Option Camera
  objects : List (Option GameObject)

/-- External inputs of one render pass: whether a texture bind succeeds
(`Texture::bind` returns `bool`; textures are external resources). -/
structure RenderEnv where
  texBindOk : Nat → Bool

/-- Panics the pass can raise (each is an `unwrap()` site in `engine.rs`). -/
inductive RenderPanic where
  | noProgram
  | singularModelMatrix
  | noLight
  | componentNotLight
  | notDirectionalLight
  | noMeshComponent
deriving DecidableEq

/-- Embedding of `EngineContext::need_prepare_program` (`engine.rs:52`):
`self.prog.is_none() || !Rc::ptr_eq(prog, self.prog.as_ref().unwrap())`.
With pointers embedded as ids, the disjunction says exactly: no program is
bound, or the bound one differs by reference identity. -/
def EngineContext.need_prepare_program (ctx : EngineContext) (p : Nat) : Bool :=
  ctx.prog.isNone || decide (ctx.prog ≠ some p)

/-- Embedding of `EngineContext::need_prepare_texture` (`engine.rs:56`),
same shape as `need_prepare_program`. -/
def EngineContext.need_prepare_texture (ctx : EngineContext) (t : Nat) : Bool :=
  ctx.tex.isNone || decide (ctx.tex ≠ some t)

/-- Result of `Engine::setup_material`: the returned `bool`, the updated
context, and the GL calls issued. -/
structure SetupResult where
  ok : Bool
  ctx : EngineContext
  ops : List GLOp

/-- Embedding of `Engine::setup_material` (`engine.rs:71`). Order as in the
source: (re)bind the program if needed; then, if the texture differs, bind it
— returning `false` on failure before anything else happens; finally set the
hard-coded `uShininess` on the current program. `curr` is the source's
`ctx.prog.as_ref().unwrap()`; after the program block `ctx.prog` is always
`some m.program` (when `need_prepare_program` is false the bound program
already equals the material's), so the `getD` default is never used. -/
def Engine.setup_material (env : RenderEnv) (ctx : EngineContext) (m : Material) : SetupResult :=
  let needP := ctx.need_prepare_program m.program
  let ctx1 := if needP then
      { ctx with prog := some m.program, switch_prog := u32succ ctx.switch_prog }
    else ctx
  let ops1 : List GLOp := if needP then [GLOp.useProgram m.program] else []
  let curr := ctx1.prog.getD m.program
  if ctx1.need_prepare_texture m.texture then
    if env.texBindOk m.texture then
      { ok := true,
        ctx := { ctx1 with tex := some m.texture, switch_tex := u32succ ctx1.switch_tex },
        ops := ops1 ++ [GLOp.bindTexture m.texture curr true,
                        GLOp.setUniform curr UName.uShininess (UniformValue.float 32)] }
    else
      { ok := false, ctx := ctx1,
        ops := ops1 ++ [GLOp.bindTexture m.texture curr false] }
  else
    { ok := true, ctx := ctx1,
      ops := ops1 ++ [GLOp.setUniform curr UName.uShininess (UniformValue.float 32)] }

/-- Component lookup on an entity (`GameObject::find_component::<Material>`):
first component, in insertion order, carrying a Material; yields the material
and the component id. -/
def GameObject.findMaterial (o : GameObject) : Option (Material × Nat) :=
  o.components.findSome? fun c =>
    match c.data with
    | ComponentData.material m => some (m, c.id)
    | _ => none

/-- Component lookup on an entity (`find_component::<Mesh>`): first Mesh
component, with its id (`com.id()`, used for mesh change-detection). -/
def GameObject.findMesh (o : GameObject) : Option (MeshBuffer × Nat) :=
  o.components.findSome? fun c =>
    match c.data with
    | ComponentData.mesh m => some (m, c.id)
    | _ => none

/-- Component lookup on an entity (`find_component::<Light>`): first Light
component, returned as the component handle (the engine stores the `Arc`). -/
def GameObject.findLight (o : GameObject) : Option Component :=
  o.components.findSome? fun c =>
    match c.data with
    | ComponentData.light _ => some c
    | _ => none

/-- Embedding of `Engine::find_component::<Light>` (`engine.rs:153`): scan
the tracked object list in order, upgrading each weak reference, and return
the first live entity's first Light component. -/
def Engine.findLightComponent (ws : List (Option GameObject)) : Option Component :=
  ws.findSome? fun w =>
    match w with
    | none => none
    | some o => o.findLight

/-- The default directional light synthesized at `engine.rs:186` when no
Light component exists in the scene. -/
def defaultDirectionalLight : DirectionalLight :=
  { direction := vnormalize ⟨1/2, -1, 1⟩
    ambient := ⟨1/5, 1/5, 1/5⟩
    diffuse := ⟨1/2, 1/2, 1/2⟩
    specular := ⟨1, 1, 1⟩ }

/-- The default light wrapped as a component (`Component::new(...)` at
`engine.rs:186`). Component construction lives outside `src/`; the id of
this component is never compared by the pass (only mesh ids are), so it is
fixed at 0 here. -/
def defaultLightComponent : Component :=
  ⟨0, ComponentData.light (Light.directional defaultDirectionalLight)⟩

/-- Light resolution of `Engine::render` (`engine.rs:185`): the first Light
found across tracked entities, or the synthesized default
(`unwrap_or` evaluates its default eagerly; the result is `getD`). -/
def Engine.resolveLight (ws : List (Option GameObject)) : Option Component :=
  some ((Engine.findLightComponent ws).getD defaultLightComponent)

/-- Non-uniform scaling matrix (`Matrix4::new_nonuniform_scaling`,
nalgebra): `diag(s.x, s.y, s.z, 1)`. -/
def scalingMat (s : Vec3) : Mat4 := Matrix.diagonal ![s.x, s.y, s.z, 1]

/-- The model matrix computed at `engine.rs:108`: the pose's homogeneous
matrix composed with the non-uniform scale. -/
def modelMatrix (o : GameObject) : Mat4 := o.transform * scalingMat o.scale

/-- Embedding of nalgebra's `try_inverse`: `none` iff the matrix is
singular, otherwise the inverse (`adjugate / det`). -/
def tryInverse (M : Mat4) : Option Mat4 :=
  if M.det = 0 then none else some (M.det⁻¹ • M.adjugate)

/-- Embedding of `Engine::render_object` (`engine.rs:100`). The `unwrap`
sites become `RenderPanic`s, in source order: `ctx.prog` (line 111), the
model-matrix inversion (line 115), `ctx.light` (line 120), the
`try_into::<Light>` downcast (line 121), the directional payload (line 125),
and the Mesh component (line 134). The mesh is rebound only when its
component id differs from the context's current mesh; the caller, not this
function, updates `ctx.mesh`. -/
def Engine.render_object (cam : Camera) (ctx : EngineContext) (o : GameObject) :
    Except RenderPanic (EngineContext × List GLOp) :=
  let modelm := modelMatrix o
  match ctx.prog with
  | none => Except.error RenderPanic.noProgram
  | some prog =>
    match tryInverse modelm with
    | none => Except.error RenderPanic.singularModelMatrix
    | some minv =>
      let mOps : List GLOp :=
        [GLOp.setUniform prog UName.uMVMatrix (UniformValue.mat4 (cam.v * modelm)),
         GLOp.setUniform prog UName.uPMatrix (UniformValue.mat4 cam.p),
         GLOp.setUniform prog UName.uNMatrix (UniformValue.mat4 minv.transpose),
         GLOp.setUniform prog UName.uMMatrix (UniformValue.mat4 modelm),
         GLOp.setUniform prog UName.uViewPos (UniformValue.vec3 cam.eye)]
      match ctx.light with
      | none => Except.error RenderPanic.noLight
      | some lightCom =>
        match lightCom.data with
        | ComponentData.light l =>
          match l.directional? with
          | none => Except.error RenderPanic.notDirectionalLight
          | some dl =>
            let lOps : List GLOp :=
              [GLOp.setUniform prog UName.dirDirection (UniformValue.vec3 dl.direction),
               GLOp.setUniform prog UName.dirAmbient (UniformValue.vec3 dl.ambient),
               GLOp.setUniform prog UName.dirDiffuse (UniformValue.vec3 dl.diffuse),
               GLOp.setUniform prog UName.dirSpecular (UniformValue.vec3 dl.specular)]
            match o.findMesh with
            | none => Except.error RenderPanic.noMeshComponent
            | some mc =>
              let r := if ctx.mesh = some mc.2 then (ctx, ([] : List GLOp))
                else ({ ctx with switch_mesh := u32succ ctx.switch_mesh },
                      [GLOp.bindMeshBuffers mc.2])
              Except.ok (r.1, mOps ++ lOps ++ r.2 ++
                [GLOp.commit prog, GLOp.drawElements mc.1.indices.length])
        | _ => Except.error RenderPanic.componentNotLight

/-- Embedding of `Engine::clear` (`engine.rs:65`): clear the color buffer
(with the color currently in effect), clear the depth buffer, then set the
clear color to `(0.2, 0.2, 0.2, 1.0)` — in that order. -/
def Engine.clear (g : GLState) : GLState × List GLOp :=
  (⟨clear02⟩,
   [GLOp.clearColorBuffer g.clearColor, GLOp.clearDepthBuffer, GLOp.setClearColor clear02])

/-- Accumulated state of the per-entity traversal: the running context and
the trace of GL calls issued so far this frame. -/
structure PassState where
  ctx : EngineContext
  ops : List GLOp

/-- One iteration of the traversal at `engine.rs:194`: a dead weak reference
or an entity without a Material contributes nothing; otherwise the material
is set up, and — only if that returned true — the object is rendered and the
context's current mesh id updated (`find_component::<Mesh>().unwrap()`,
a panic when the entity has a Material but no Mesh). -/
def renderStep (env : RenderEnv) (cam : Camera) (st : PassState) (w : Option GameObject) :
    Except RenderPanic PassState :=
  match w with
  | none => Except.ok st
  | some o =>
    match o.findMaterial with
    | none => Except.ok st
    | some mm =>
      let r := Engine.setup_material env st.ctx mm.1
      if r.ok then
        match Engine.render_object cam r.ctx o with
        | Except.error p => Except.error p
        | Except.ok co =>
          match o.findMesh with
          | none => Except.error RenderPanic.noMeshComponent
          | some mc =>
            Except.ok ⟨{ co.1 with mesh := some mc.2 }, st.ops ++ r.ops ++ co.2⟩
      else Except.ok ⟨r.ctx, st.ops ++ r.ops⟩

/-- The traversal over the tracked object list, stopping at the first panic. -/
def renderLoop (env : RenderEnv) (cam : Camera) (st : PassState) :
    List (Option GameObject) → Except RenderPanic PassState
  | [] => Except.ok st
  | w :: ws =>
    match renderStep env cam st w with
    | Except.error p => Except.error p
    | Except.ok st1 => renderLoop env cam st1 ws

/-- Outcome of a completed render pass: the engine after pruning, the final
frame context (`none` when no camera was set, so none was created), and the
GL trace of the frame. -/
structure RenderOk where
  engine : Engine
  ctx : Option EngineContext
  ops : List GLOp

/-- Embedding of `Engine::render` (`engine.rs:175`): clear; if a main camera
is set, resolve the frame light, traverse the entities, and finally retain
only the objects whose weak reference is still live. The imgui overlay
(`imgui::pre_render`) is an external collaborator and issues no engine-core
GL state changes modelled here. A panic anywhere aborts the frame (no
pruning happens on the panicking frame). -/
def Engine.render (env : RenderEnv) (e : Engine) : Except RenderPanic RenderOk :=
  let c := Engine.clear e.gl
  match e.main_camera with
  | none =>
    Except.ok ⟨{ e with gl := c.1, objects := e.objects.filter Option.isSome }, none, c.2⟩
  | some cam =>
    let ctx0 : EngineContext :=
      ⟨none, none, none, Engine.resolveLight e.objects, 0, 0, 0⟩
    match renderLoop env cam ⟨ctx0, c.2⟩ e.objects with
    | Except.error p => Except.error p
    | Except.ok st =>
      Except.ok ⟨{ e with gl := c.1, objects := e.objects.filter Option.isSome },
                 some st.ctx, st.ops⟩

/-- Embedding of `Engine::new` (`engine.rs:215`): set clear color
`(0.5, 0.5, 0.5, 1.0)`, enable depth test and blending, clear both buffers
(the 0.5 color is in effect), set the blend function, set the viewport; the
engine starts with no camera and no tracked objects. -/
def Engine.new (size : Nat × Nat) : Engine × List GLOp :=
  ({ gl := ⟨clear05⟩, main_camera := none, objects := [] },
   [GLOp.setClearColor clear05, GLOp.enableDepthTest, GLOp.enableBlend,
    GLOp.clearColorBuffer clear05, GLOp.clearDepthBuffer, GLOp.blendFuncAlpha,
    GLOp.viewport 0 0 size.1 size.2])

/-- Modelled GPU state of a prepared mesh (`MeshGLState`, `mesh.rs:29`):
buffer handles for vertices, optional uvs, optional normals, indices. -/
structure MeshGLState where
  vb : Nat
  uvb : Option Nat
  nb : Option Nat
  ib : Nat
deriving DecidableEq

/-- Shader-program attribute lookup used by `Mesh::bind`
(`program.get_coord(gl, name)`): absent attributes yield `none`, which is
silently skipped, not an error. -/
structure ShaderProg where
  coords : AttrName → Option Nat

/-- Embedding of `mesh_bind_buffer` (`mesh.rs:116`): create and upload the
vertex buffer, then the uv buffer (only if uv data is present), then the
normal buffer (only if present), then the index buffer. Buffer handles are
allocated sequentially from `fresh`. Byte lengths follow `into_bytes`:
`size_of::<f32>() = 4` and `size_of::<u16>() = 2` times the element count. -/
def mesh_bind_buffer (b : MeshBuffer) (fresh : Nat) : MeshGLState × List GLOp :=
  let vOps : List GLOp :=
    [GLOp.createBuffer fresh, GLOp.bindBuffer BufferKind.array fresh,
     GLOp.bufferData BufferKind.array (4 * b.vertices.length),
     GLOp.unbindBuffer BufferKind.array]
  let uvPart : Option Nat × List GLOp × Nat :=
    match b.uvs with
    | some uvs =>
      (some (fresh + 1),
       [GLOp.createBuffer (fresh + 1), GLOp.bindBuffer BufferKind.array (fresh + 1),
        GLOp.bufferData BufferKind.array (4 * uvs.length),
        GLOp.unbindBuffer BufferKind.array],
       fresh + 2)
    | none => (none, [], fresh + 1)
  let n1 := uvPart.2.2
  let nPart : Option Nat × List GLOp × Nat :=
    match b.normals with
    | some ns =>
      (some n1,
       [GLOp.createBuffer n1, GLOp.bindBuffer BufferKind.array n1,
        GLOp.bufferData BufferKind.array (4 * ns.length),
        GLOp.unbindBuffer BufferKind.array],
       n1 + 1)
    | none => (none, [], n1)
  let n2 := nPart.2.2
  let iOps : List GLOp :=
    [GLOp.createBuffer n2, GLOp.bindBuffer BufferKind.elementArray n2,
     GLOp.bufferData BufferKind.elementArray (2 * b.indices.length),
     GLOp.unbindBuffer BufferKind.elementArray]
  (⟨fresh, uvPart.1, nPart.1, n2⟩, vOps ++ uvPart.2.1 ++ nPart.2.1 ++ iOps)

/-- The Mesh resource (`mesh.rs:22`): raw buffers plus the lazily
materialized GPU state (`RefCell<Option<MeshGLState>>`, embedded by
returning the updated resource from each operation). -/
structure Mesh where
  mesh_buffer : MeshBuffer
  gl_state : Option MeshGLState
deriving DecidableEq

/-- Embedding of `Mesh::new` (`mesh.rs:37`): GPU state starts out absent. -/
def Mesh.new (b : MeshBuffer) : Mesh := ⟨b, none⟩

/-- Embedding of `Mesh::prepare` (`mesh.rs:95`): upload the buffers and
cache the GPU state, but only if it has never been materialized. -/
def Mesh.prepare (m : Mesh) (fresh : Nat) : Mesh × List GLOp :=
  match m.gl_state with
  | some _ => (m, [])
  | none =>
    let r := mesh_bind_buffer m.mesh_buffer fresh
    (⟨m.mesh_buffer, some r.1⟩, r.2)

/-- Embedding of `Mesh::bind` (`mesh.rs:44`): prepare first, then bind the
vertex buffer and wire the position attribute (skipped silently if the
program does not expose it), then the normal buffer and attribute (only if
normal data exists), then the uv buffer and attribute, and finally the index
buffer. The `none` state branch is unreachable: `prepare` always
materializes the state the source then unwraps. -/
def Mesh.bind (m : Mesh) (fresh : Nat) (prog : ShaderProg) : Mesh × List GLOp :=
  let pr := Mesh.prepare m fresh
  match pr.1.gl_state with
  | none => pr
  | some st =>
    let posOps : List GLOp :=
      match prog.coords AttrName.aVertexPosition with
      | some c => [GLOp.vertexAttribPointer c 3]
      | none => []
    let nOps : List GLOp :=
      match st.nb with
      | some nb =>
        GLOp.bindBuffer BufferKind.array nb ::
          (match prog.coords AttrName.aVertexNormal with
           | some c => [GLOp.vertexAttribPointer c 3]
           | none => [])
      | none => []
    let uvOps : List GLOp :=
      match st.uvb with
      | some uvb =>
        GLOp.bindBuffer BufferKind.array uvb ::
          (match prog.coords AttrName.aTextureCoord with
           | some c => [GLOp.vertexAttribPointer c 2]
           | none => [])
      | none => []
    (pr.1, pr.2 ++ [GLOp.bindBuffer BufferKind.array st.vb] ++ posOps ++ nOps ++ uvOps
      ++ [GLOp.bindBuffer BufferKind.elementArray st.ib])

/-- Embedding of `Mesh::render` (`mesh.rs:82`): an indexed triangle-list
draw call sized to the index count. -/
def Mesh.renderOps (m : Mesh) : List GLOp := [GLOp.drawElements m.mesh_buffer.indices.length]

/-- Recognizer for buffer-upload calls (`gl.buffer_data`). -/
def isUpload : GLOp → Bool
  | GLOp.bufferData _ _ => true
  | _ => false

/-- Recognizer for buffer-creation calls (`gl.create_buffer`). -/
def isCreate : GLOp → Bool
  | GLOp.createBuffer _ => true
  | _ => false

/-- Number of buffer uploads in a GL trace. -/
def uploadCount (ops : List GLOp) : Nat := ops.countP isUpload

/-- Number of buffer creations in a GL trace. -/
def createCount (ops : List GLOp) : Nat := ops.countP isCreate

/-- A sequence of `bind` calls on one mesh resource (possibly spanning
frames and different shader programs), with the accumulated GL trace. -/
def bindSeq (m : Mesh) (fresh : Nat) : List ShaderProg → Mesh × List GLOp
  | [] => (m, [])
  | p :: ps =>
    let r := Mesh.bind m fresh p
    let rest := bindSeq r.1 fresh ps
    (rest.1, r.2 ++ rest.2)

/-- Environment in which every texture bind succeeds. -/
def envAllOk : RenderEnv := ⟨fun _ => true⟩

/-- Environment in which every texture bind fails. -/
def envAllFail : RenderEnv := ⟨fun _ => false⟩

/-- Context of a pass that has already drawn one entity using program 0 and
texture 0. -/
def ctxBound : EngineContext := ⟨none, some 0, some 0, none, 0, 0, 0⟩

/-- A material whose program and texture differ from the bound ones. -/
def matOther : Material := ⟨1, 1⟩

/-- A fresh frame context (`EngineContext::default()` with no light). -/
def ctxFresh : EngineContext := ⟨none, none, none, none, 0, 0, 0⟩

/-- A material whose texture bind will fail. -/
def matFail : Material := ⟨0, 0⟩

/-- The camera used by concrete witnesses: identity view and projection,
eye at the origin. -/
def camW : Camera := ⟨1, 1, ⟨0, 0, 0⟩⟩

/-- An entity carrying only a Material (program 0, texture 0): identity
pose, unit scale. -/
def objMatOnly : GameObject := ⟨1, ⟨1, 1, 1⟩, [⟨5, ComponentData.material ⟨0, 0⟩⟩]⟩

/-- Engine holding one live entity that has a Material but no Mesh, with a
main camera set. -/
def engC1 : Engine := ⟨⟨clear05⟩, some camW, [some objMatOnly]⟩

/-- An entity carrying only a Mesh component (no Material). -/
def objMeshOnly : GameObject :=
  ⟨1, ⟨1, 1, 1⟩, [⟨6, ComponentData.mesh ⟨[], none, none, []⟩⟩]⟩

/-- A context whose frame light is the default directional light. -/
def ctxLit : EngineContext := ⟨none, none, none, some defaultLightComponent, 0, 0, 0⟩

/-- An engine with a camera and no tracked entities (hence no light). -/
def engC3 : Engine := ⟨⟨clear05⟩, some camW, []⟩

/-- An engine with no camera tracking one dead weak reference. -/
def engC6 : Engine := ⟨⟨clear05⟩, none, [Option.none]⟩

/-- The pass outcome on `engC6`. -/
def rC6 : RenderOk := ⟨⟨⟨clear02⟩, none, []⟩, none,
  [GLOp.clearColorBuffer clear05, GLOp.clearDepthBuffer, GLOp.setClearColor clear02]⟩

/-- An entity with identity pose, unit scale, and one Mesh component. -/
def objC7 : GameObject := ⟨1, ⟨1, 1, 1⟩, [⟨9, ComponentData.mesh ⟨[], none, none, []⟩⟩]⟩

/-- A context with program 0 bound and the default light resolved. -/
def ctxC7 : EngineContext := ⟨none, some 0, none, some defaultLightComponent, 0, 0, 0⟩

/-- An engine with no camera and no tracked objects. -/
def engC8 : Engine := ⟨⟨clear05⟩, none, []⟩

/-- A Point-light component. -/
def compPL : Component := ⟨7, ComponentData.light (Light.point ⟨⟨0, 0, 0⟩⟩)⟩

/-- An entity carrying the Point-light component. -/
def objPL : GameObject := ⟨1, ⟨1, 1, 1⟩, [compPL]⟩

/-- An engine whose only light is the Point light. -/
def engC9 : Engine := ⟨⟨clear05⟩, some camW, [some objPL]⟩

/-- A frame context that resolved the Point light, with program 0 bound. -/
def ctxPL : EngineContext := ⟨none, some 0, none, some compPL, 0, 0, 0⟩

/-- First-frame pass outcome after `Engine::new`. -/
def rC10a : RenderOk := ⟨⟨⟨clear02⟩, none, []⟩, none,
  [GLOp.clearColorBuffer clear05, GLOp.clearDepthBuffer, GLOp.setClearColor clear02]⟩

/-- Second-frame pass outcome. -/
def rC10b : RenderOk := ⟨⟨⟨clear02⟩, none, []⟩, none,
  [GLOp.clearColorBuffer clear02, GLOp.clearDepthBuffer, GLOp.setClearColor clear02]⟩

lemma need_prepare_program_eq_false (ctx : EngineContext) (p : Nat)
    (h : ctx.need_prepare_program p = false) : ctx.prog = some p := by
  simp [EngineContext.need_prepare_program] at h
  exact h.2

lemma need_prepare_texture_eq_false (ctx : EngineContext) (t : Nat)
    (h : ctx.need_prepare_texture t = false) : ctx.tex = some t := by
  simp [EngineContext.need_prepare_texture] at h
  exact h.2

lemma setup_ctx_light (env : RenderEnv) (ctx : EngineContext) (m : Material) :
    (Engine.setup_material env ctx m).ctx.light = ctx.light := by
  simp only [Engine.setup_material, EngineContext.need_prepare_texture]
  split_ifs <;> rfl

lemma setup_ctx_mesh (env : RenderEnv) (ctx : EngineContext) (m : Material) :
    (Engine.setup_material env ctx m).ctx.mesh = ctx.mesh := by
  simp only [Engine.setup_material, EngineContext.need_prepare_texture]
  split_ifs <;> rfl

lemma setup_ctx_switch_mesh (env : RenderEnv) (ctx : EngineContext) (m : Material) :
    (Engine.setup_material env ctx m).ctx.switch_mesh = ctx.switch_mesh := by
  simp only [Engine.setup_material, EngineContext.need_prepare_texture]
  split_ifs <;> rfl

lemma setup_ctx_prog (env : RenderEnv) (ctx : EngineContext) (m : Material) :
    (Engine.setup_material env ctx m).ctx.prog = some m.program := by
  simp only [Engine.setup_material, EngineContext.need_prepare_texture]
  split_ifs with h1 h2 h3 h4 h5 h6 <;>
    first
      | rfl
      | exact need_prepare_program_eq_false ctx m.program (by simpa using h1)

lemma setup_ctx_tex_of_ok (env : RenderEnv) (ctx : EngineContext) (m : Material)
    (h : (Engine.setup_material env ctx m).ok = true) :
    (Engine.setup_material env ctx m).ctx.tex = some m.texture := by
  simp only [Engine.setup_material] at h ⊢
  split_ifs at h ⊢ with h1 h2 h3 <;>
    first
      | rfl
      | exact need_prepare_texture_eq_false ctx m.texture (by simpa using h1)
      | (have h9 := need_prepare_texture_eq_false
           ⟨ctx.mesh, some m.program, ctx.tex, ctx.light, ctx.switch_mesh,
            u32succ ctx.switch_prog, ctx.switch_tex⟩ m.texture (by simpa using h2)
         exact h9)
      | simp_all
      | skip
  all_goals
    rename_i hx
    exact need_prepare_texture_eq_false ctx m.texture hx

lemma setup_switch_prog (env : RenderEnv) (ctx : EngineContext) (m : Material) :
    (Engine.setup_material env ctx m).ctx.switch_prog =
      (if ctx.need_prepare_program m.program then u32succ ctx.switch_prog
       else ctx.switch_prog) := by
  simp only [Engine.setup_material]
  split_ifs <;> simp_all

lemma setup_switch_tex_of_ok (env : RenderEnv) (ctx : EngineContext) (m : Material)
    (h : (Engine.setup_material env ctx m).ok = true) :
    (Engine.setup_material env ctx m).ctx.switch_tex =
      (if ctx.need_prepare_texture m.texture then u32succ ctx.switch_tex
       else ctx.switch_tex) := by
  have htex : EngineContext.need_prepare_texture
      ⟨ctx.mesh, some m.program, ctx.tex, ctx.light, ctx.switch_mesh,
       u32succ ctx.switch_prog, ctx.switch_tex⟩ m.texture =
      ctx.need_prepare_texture m.texture := rfl
  simp only [Engine.setup_material] at h ⊢
  split_ifs at h ⊢ <;> simp_all

lemma setup_ok_iff (env : RenderEnv) (ctx : EngineContext) (m : Material) :
    (Engine.setup_material env ctx m).ok =
      (!(ctx.need_prepare_texture m.texture) || env.texBindOk m.texture) := by
  have htex : EngineContext.need_prepare_texture
      ⟨ctx.mesh, some m.program, ctx.tex, ctx.light, ctx.switch_mesh,
       u32succ ctx.switch_prog, ctx.switch_tex⟩ m.texture =
      ctx.need_prepare_texture m.texture := rfl
  simp only [Engine.setup_material]
  split_ifs <;> simp_all

lemma setup_ctx_tex_of_fail (env : RenderEnv) (ctx : EngineContext) (m : Material)
    (h : (Engine.setup_material env ctx m).ok = false) :
    (Engine.setup_material env ctx m).ctx.tex = ctx.tex ∧
    (Engine.setup_material env ctx m).ctx.switch_tex = ctx.switch_tex := by
  have htex : EngineContext.need_prepare_texture
      ⟨ctx.mesh, some m.program, ctx.tex, ctx.light, ctx.switch_mesh,
       u32succ ctx.switch_prog, ctx.switch_tex⟩ m.texture =
      ctx.need_prepare_texture m.texture := rfl
  simp only [Engine.setup_material] at h ⊢
  split_ifs at h ⊢ <;> simp_all

lemma render_object_ne_noLight (cam : Camera) (ctx : EngineContext) (o : GameObject)
    (c : Component) (h : ctx.light = some c) :
    Engine.render_object cam ctx o ≠ Except.error RenderPanic.noLight := by
  unfold Engine.render_object
  cases hp : ctx.prog with
  | none => simp
  | some prog =>
    simp only
    cases hi : tryInverse (modelMatrix o) with
    | none => simp [hi]
    | some minv =>
      simp only [h, hi]
      cases hd : c.data with
      | mesh mm => simp [hd]
      | material mm => simp [hd]
      | light l =>
        simp only [hd]
        cases hl : l.directional? with
        | none => simp [hl]
        | some dl =>
          simp only [hl]
          cases hm : o.findMesh with
          | none => simp [hm]
          | some mc => simp [hm]

lemma render_object_ok_light (cam : Camera) (ctx : EngineContext) (o : GameObject)
    (r : EngineContext × List GLOp) (h : Engine.render_object cam ctx o = Except.ok r) :
    r.1.light = ctx.light := by
  unfold Engine.render_object at h
  cases hp : ctx.prog with
  | none => simp only [hp] at h; exact Except.noConfusion h
  | some prog =>
    simp only [hp] at h
    cases hi : tryInverse (modelMatrix o) with
    | none => simp only [hi] at h; exact Except.noConfusion h
    | some minv =>
      simp only [hi] at h
      cases hl : ctx.light with
      | none => simp only [hl] at h; exact Except.noConfusion h
      | some lc =>
        simp only [hl] at h
        cases hd : lc.data with
        | mesh mm => simp only [hd] at h; exact Except.noConfusion h
        | material mm => simp only [hd] at h; exact Except.noConfusion h
        | light l =>
          simp only [hd] at h
          cases hdl : l.directional? with
          | none => simp only [hdl] at h; exact Except.noConfusion h
          | some dl =>
            simp only [hdl] at h
            cases hm : o.findMesh with
            | none => simp only [hm] at h; exact Except.noConfusion h
            | some mc =>
              simp only [hm, Except.ok.injEq] at h
              subst h
              split_ifs <;> simp [hl]

lemma tryInverse_eq_none_iff (M : Mat4) : tryInverse M = none ↔ M.det = 0 := by
  unfold tryInverse
  split_ifs with h <;> simp [h]

lemma tryInverse_mul (M N : Mat4) (h : tryInverse M = some N) :
    M * N = 1 ∧ N * M = 1 := by
  unfold tryInverse at h
  split_ifs at h with hd
  simp only [Option.some.injEq] at h
  subst h
  constructor
  · rw [Matrix.mul_smul, Matrix.mul_adjugate, smul_smul, inv_mul_cancel₀ hd, one_smul]
  · rw [Matrix.smul_mul, Matrix.adjugate_mul, smul_smul, inv_mul_cancel₀ hd, one_smul]

lemma vecOne_eq : ![(1:ℚ), 1, 1, 1] = fun _ => (1:ℚ) := by
  funext i
  fin_cases i <;> rfl

lemma scalingMat_one : scalingMat ⟨1, 1, 1⟩ = 1 := by
  show Matrix.diagonal ![(1:ℚ), 1, 1, 1] = 1
  rw [vecOne_eq, Matrix.diagonal_one]

lemma tryInverse_one : tryInverse (1 : Mat4) = some 1 := by
  unfold tryInverse
  rw [Matrix.det_one]
  simp [Matrix.adjugate_one]

lemma ratSqrt_nine_fourths : ratSqrt (9/4 : ℚ) = 3/2 := by
  have hcast : ((9:ℚ)/4) = (((9:ℤ) : ℚ) / ((4:ℤ) : ℚ)) := by norm_num
  have hnum : ((9:ℚ)/4).num = 9 := by
    rw [hcast]
    exact Rat.num_div_eq_of_coprime (by norm_num) (by norm_num)
  have hden : (((9:ℚ)/4).den : ℤ) = 4 := by
    rw [hcast]
    exact Rat.den_div_eq_of_coprime (by norm_num) (by norm_num)
  have hdenN : ((9:ℚ)/4).den = 4 := by exact_mod_cast hden
  unfold ratSqrt
  rw [hnum, hdenN]
  rw [show natSqrtE ((9:ℤ).toNat * 4) = 6 by decide]
  norm_num

lemma vnormalize_default : vnormalize ⟨1/2, -1, 1⟩ = ⟨1/3, -2/3, 2/3⟩ := by
  have hn : normSq ⟨1/2, -1, 1⟩ = 9/4 := by norm_num [normSq]
  simp only [vnormalize, hn, ratSqrt_nine_fourths]
  simp only [Vec3.mk.injEq]
  norm_num

lemma normSq_default_unit : normSq ⟨1/3, -2/3, 2/3⟩ = 1 := by
  norm_num [normSq]

lemma render_object_singular (cam : Camera) (ctx : EngineContext) (o : GameObject)
    (p : Nat) (hp : ctx.prog = some p) (hi : tryInverse (modelMatrix o) = none) :
    Engine.render_object cam ctx o = Except.error RenderPanic.singularModelMatrix := by
  unfold Engine.render_object
  simp only [hp, hi]

lemma render_object_point (cam : Camera) (ctx : EngineContext) (o : GameObject)
    (p : Nat) (lc : Component) (pl : PointLight) (N : Mat4)
    (hp : ctx.prog = some p) (hl : ctx.light = some lc)
    (hd : lc.data = ComponentData.light (Light.point pl))
    (hi : tryInverse (modelMatrix o) = some N) :
    Engine.render_object cam ctx o = Except.error RenderPanic.notDirectionalLight := by
  unfold Engine.render_object
  simp only [hp, hi, hl, hd, Light.directional?]

lemma render_object_ok_explicit (cam : Camera) (ctx : EngineContext) (o : GameObject)
    (p : Nat) (lc : Component) (dl : DirectionalLight) (mb : MeshBuffer) (cid : Nat) (N : Mat4)
    (hp : ctx.prog = some p) (hl : ctx.light = some lc)
    (hd : lc.data = ComponentData.light (Light.directional dl))
    (hm : o.findMesh = some (mb, cid)) (hi : tryInverse (modelMatrix o) = some N) :
    Engine.render_object cam ctx o = Except.ok
      ((if ctx.mesh = some cid then ctx
        else { ctx with switch_mesh := u32succ ctx.switch_mesh }),
       ([GLOp.setUniform p UName.uMVMatrix (UniformValue.mat4 (cam.v * modelMatrix o)),
         GLOp.setUniform p UName.uPMatrix (UniformValue.mat4 cam.p),
         GLOp.setUniform p UName.uNMatrix (UniformValue.mat4 N.transpose),
         GLOp.setUniform p UName.uMMatrix (UniformValue.mat4 (modelMatrix o)),
         GLOp.setUniform p UName.uViewPos (UniformValue.vec3 cam.eye)] ++
        [GLOp.setUniform p UName.dirDirection (UniformValue.vec3 dl.direction),
         GLOp.setUniform p UName.dirAmbient (UniformValue.vec3 dl.ambient),
         GLOp.setUniform p UName.dirDiffuse (UniformValue.vec3 dl.diffuse),
         GLOp.setUniform p UName.dirSpecular (UniformValue.vec3 dl.specular)] ++
        (if ctx.mesh = some cid then [] else [GLOp.bindMeshBuffers cid]) ++
        [GLOp.commit p, GLOp.drawElements mb.indices.length])) := by
  unfold Engine.render_object
  simp only [hp, hi, hl, hd, Light.directional?, hm]
  split_ifs <;> simp

lemma render_object_no_mesh (cam : Camera) (ctx : EngineContext) (o : GameObject)
    (p : Nat) (lc : Component) (dl : DirectionalLight) (N : Mat4)
    (hp : ctx.prog = some p) (hl : ctx.light = some lc)
    (hd : lc.data = ComponentData.light (Light.directional dl))
    (hm : o.findMesh = none) (hi : tryInverse (modelMatrix o) = some N) :
    Engine.render_object cam ctx o = Except.error RenderPanic.noMeshComponent := by
  unfold Engine.render_object
  simp only [hp, hi, hl, hd, Light.directional?, hm]

lemma renderStep_none (env : RenderEnv) (cam : Camera) (st : PassState) :
    renderStep env cam st none = Except.ok st := rfl

lemma renderStep_ok_light (env : RenderEnv) (cam : Camera) (st : PassState)
    (w : Option GameObject) (st1 : PassState)
    (h : renderStep env cam st w = Except.ok st1) : st1.ctx.light = st.ctx.light := by
  cases w with
  | none =>
    simp only [renderStep, Except.ok.injEq] at h
    subst h; rfl
  | some o =>
    unfold renderStep at h
    cases hfm : o.findMaterial with
    | none =>
      simp only [hfm, Except.ok.injEq] at h
      subst h; rfl
    | some mm =>
      simp only [hfm] at h
      cases hok : (Engine.setup_material env st.ctx mm.1).ok with
      | false =>
        simp only [hok, Bool.false_eq_true, if_false, Except.ok.injEq] at h
        subst h
        exact setup_ctx_light env st.ctx mm.1
      | true =>
        simp only [hok, if_true] at h
        cases hro : Engine.render_object cam (Engine.setup_material env st.ctx mm.1).ctx o with
        | error p => simp only [hro] at h; exact Except.noConfusion h
        | ok co =>
          simp only [hro] at h
          cases hm : o.findMesh with
          | none => simp only [hm] at h; exact Except.noConfusion h
          | some mc =>
            simp only [hm, Except.ok.injEq] at h
            subst h
            have h1 := render_object_ok_light cam (Engine.setup_material env st.ctx mm.1).ctx o co hro
            have h2 := setup_ctx_light env st.ctx mm.1
            simpa [h1] using h2

lemma renderStep_ne_noLight (env : RenderEnv) (cam : Camera) (st : PassState)
    (w : Option GameObject) (c : Component) (h : st.ctx.light = some c) :
    renderStep env cam st w ≠ Except.error RenderPanic.noLight := by
  cases w with
  | none => simp [renderStep]
  | some o =>
    unfold renderStep
    cases hfm : o.findMaterial with
    | none => simp [hfm]
    | some mm =>
      simp only [hfm]
      cases hok : (Engine.setup_material env st.ctx mm.1).ok with
      | false => simp [hok]
      | true =>
        simp only [hok, if_true]
        have hl : (Engine.setup_material env st.ctx mm.1).ctx.light = some c := by
          rw [setup_ctx_light env st.ctx mm.1]; exact h
        cases hro : Engine.render_object cam (Engine.setup_material env st.ctx mm.1).ctx o with
        | error p =>
          have h2 := render_object_ne_noLight cam (Engine.setup_material env st.ctx mm.1).ctx o c hl
          rw [hro] at h2
          have hp2 : p ≠ RenderPanic.noLight := fun hh => h2 (by rw [hh])
          simp only [hro]
          simp [hp2]
        | ok co =>
          simp only [hro]
          cases hm : o.findMesh <;> simp [hm]

lemma renderLoop_ok_light (env : RenderEnv) (cam : Camera) :
    ∀ (ws : List (Option GameObject)) (st st1 : PassState),
      renderLoop env cam st ws = Except.ok st1 → st1.ctx.light = st.ctx.light := by
  intro ws
  induction ws with
  | nil =>
    intro st st1 h
    simp only [renderLoop, Except.ok.injEq] at h
    subst h; rfl
  | cons w ws ih =>
    intro st st1 h
    unfold renderLoop at h
    cases hs : renderStep env cam st w with
    | error p => rw [hs] at h; exact Except.noConfusion h
    | ok st2 =>
      rw [hs] at h
      have h1 := ih st2 st1 h
      have h2 := renderStep_ok_light env cam st w st2 hs
      rw [h1, h2]

lemma renderLoop_ne_noLight (env : RenderEnv) (cam : Camera) :
    ∀ (ws : List (Option GameObject)) (st : PassState) (c : Component),
      st.ctx.light = some c →
      renderLoop env cam st ws ≠ Except.error RenderPanic.noLight := by
  intro ws
  induction ws with
  | nil =>
    intro st c h
    simp [renderLoop]
  | cons w ws ih =>
    intro st c h
    unfold renderLoop
    cases hs : renderStep env cam st w with
    | error p =>
      have h2 := renderStep_ne_noLight env cam st w c h
      rw [hs] at h2
      have hp2 : p ≠ RenderPanic.noLight := fun hh => h2 (by rw [hh])
      simp [hp2]
    | ok st2 =>
      have h2 := renderStep_ok_light env cam st w st2 hs
      exact ih st2 c (by rw [h2]; exact h)

lemma renderLoop_filter (env : RenderEnv) (cam : Camera) :
    ∀ (ws : List (Option GameObject)) (st : PassState),
      renderLoop env cam st (ws.filter Option.isSome) = renderLoop env cam st ws := by
  intro ws
  induction ws with
  | nil => intro st; rfl
  | cons w ws ih =>
    intro st
    cases w with
    | none =>
      show renderLoop env cam st (List.filter Option.isSome ws) = _
      rw [ih st]
      rfl
    | some o =>
      show renderLoop env cam st (some o :: List.filter Option.isSome ws) = _
      unfold renderLoop
      cases hs : renderStep env cam st (some o) with
      | error p => rfl
      | ok st2 => exact ih st2

lemma findLightComponent_filter :
    ∀ ws : List (Option GameObject),
      Engine.findLightComponent (ws.filter Option.isSome) = Engine.findLightComponent ws := by
  intro ws
  induction ws with
  | nil => rfl
  | cons w ws ih =>
    cases w with
    | none =>
      show Engine.findLightComponent (List.filter Option.isSome ws) = _
      rw [ih]
      rfl
    | some o =>
      show Engine.findLightComponent (some o :: List.filter Option.isSome ws) = _
      unfold Engine.findLightComponent at ih ⊢
      simp only [List.findSome?_cons]
      cases o.findLight with
      | none => exact ih
      | some c => rfl

lemma mesh_bind_buffer_counts (b : MeshBuffer) (fresh : Nat) :
    uploadCount (mesh_bind_buffer b fresh).2 =
      2 + (if b.uvs.isSome then 1 else 0) + (if b.normals.isSome then 1 else 0) ∧
    createCount (mesh_bind_buffer b fresh).2 =
      2 + (if b.uvs.isSome then 1 else 0) + (if b.normals.isSome then 1 else 0) := by
  cases hu : b.uvs <;> cases hn : b.normals <;>
    simp [mesh_bind_buffer, uploadCount, createCount, hu, hn, isUpload, isCreate,
      List.countP_cons, List.countP_append]

lemma mesh_bind_prepared (m : Mesh) (fresh : Nat) (p : ShaderProg) (st : MeshGLState)
    (h : m.gl_state = some st) :
    (Mesh.bind m fresh p).1 = m ∧ uploadCount (Mesh.bind m fresh p).2 = 0 ∧
      createCount (Mesh.bind m fresh p).2 = 0 := by
  refine ⟨?_, ?_, ?_⟩
  · unfold Mesh.bind Mesh.prepare
    simp only [h]
  · unfold Mesh.bind Mesh.prepare
    simp only [h]
    cases hc1 : p.coords AttrName.aVertexPosition <;>
      cases hnb : st.nb <;> cases huv : st.uvb <;>
      simp [uploadCount, isUpload, List.countP_cons, List.countP_append, hc1, hnb, huv] <;>
      first
        | (cases hc2 : p.coords AttrName.aVertexNormal <;>
           cases hc3 : p.coords AttrName.aTextureCoord <;>
           simp [List.countP_cons, isUpload, hc2, hc3])
        | (cases hc2 : p.coords AttrName.aVertexNormal <;>
           simp [List.countP_cons, isUpload, hc2])
        | (cases hc3 : p.coords AttrName.aTextureCoord <;>
           simp [List.countP_cons, isUpload, hc3])
  · unfold Mesh.bind Mesh.prepare
    simp only [h]
    cases hc1 : p.coords AttrName.aVertexPosition <;>
      cases hnb : st.nb <;> cases huv : st.uvb <;>
      simp [createCount, isCreate, List.countP_cons, List.countP_append, hc1, hnb, huv] <;>
      first
        | (cases hc2 : p.coords AttrName.aVertexNormal <;>
           cases hc3 : p.coords AttrName.aTextureCoord <;>
           simp [List.countP_cons, isCreate, hc2, hc3])
        | (cases hc2 : p.coords AttrName.aVertexNormal <;>
           simp [List.countP_cons, isCreate, hc2])
        | (cases hc3 : p.coords AttrName.aTextureCoord <;>
           simp [List.countP_cons, isCreate, hc3])

lemma mesh_new_bind (b : MeshBuffer) (fresh : Nat) (p : ShaderProg) :
    (Mesh.bind (Mesh.new b) fresh p).1 = ⟨b, some (mesh_bind_buffer b fresh).1⟩ ∧
    uploadCount (Mesh.bind (Mesh.new b) fresh p).2 =
      uploadCount (mesh_bind_buffer b fresh).2 ∧
    createCount (Mesh.bind (Mesh.new b) fresh p).2 =
      createCount (mesh_bind_buffer b fresh).2 := by
  have hpre : Mesh.prepare (Mesh.new b) fresh =
      (⟨b, some (mesh_bind_buffer b fresh).1⟩, (mesh_bind_buffer b fresh).2) := rfl
  have hrest := mesh_bind_prepared ⟨b, some (mesh_bind_buffer b fresh).1⟩ fresh p
    (mesh_bind_buffer b fresh).1 rfl
  refine ⟨?_, ?_, ?_⟩
  · unfold Mesh.bind
    rw [hpre]
  · unfold Mesh.bind
    rw [hpre]
    have h2 := hrest.2.1
    unfold Mesh.bind at h2
    rw [show Mesh.prepare ⟨b, some (mesh_bind_buffer b fresh).1⟩ fresh =
      (⟨b, some (mesh_bind_buffer b fresh).1⟩, ([] : List GLOp)) from rfl] at h2
    simp only [uploadCount, List.countP_append, List.countP_nil] at h2 ⊢
    omega
  · unfold Mesh.bind
    rw [hpre]
    have h2 := hrest.2.2
    unfold Mesh.bind at h2
    rw [show Mesh.prepare ⟨b, some (mesh_bind_buffer b fresh).1⟩ fresh =
      (⟨b, some (mesh_bind_buffer b fresh).1⟩, ([] : List GLOp)) from rfl] at h2
    simp only [createCount, List.countP_append, List.countP_nil] at h2 ⊢
    omega

lemma bindSeq_prepared (fresh : Nat) :
    ∀ (ps : List ShaderProg) (m : Mesh) (st : MeshGLState), m.gl_state = some st →
      (bindSeq m fresh ps).1 = m ∧ uploadCount (bindSeq m fresh ps).2 = 0 ∧
        createCount (bindSeq m fresh ps).2 = 0 := by
  intro ps
  induction ps with
  | nil =>
    intro m st h
    exact ⟨rfl, rfl, rfl⟩
  | cons p ps ih =>
    intro m st h
    have hb := mesh_bind_prepared m fresh p st h
    have hrest := ih (Mesh.bind m fresh p).1 st (by rw [hb.1]; exact h)
    unfold bindSeq
    refine ⟨by rw [hrest.1, hb.1], ?_, ?_⟩
    · simp only [uploadCount, List.countP_append] at hb hrest ⊢
      omega
    · simp only [createCount, List.countP_append] at hb hrest ⊢
      omega

/-- C5: for every Mesh resource, GPU buffer creation and data upload happen
exactly once, on the first `bind` (one upload per present array: vertices,
indices, and optional uv/normal data); every later `bind` — in the same or a
later frame, against any shader programs — leaves the cached GPU state
untouched, re-uploads nothing, creates no buffer, and `prepare` is
idempotent. -/
theorem c5_mesh_prepare_idempotent (b : MeshBuffer) (fresh : Nat) (p : ShaderProg)
    (ps : List ShaderProg) :
    (Mesh.bind (Mesh.new b) fresh p).1.gl_state = some (mesh_bind_buffer b fresh).1
    ∧ uploadCount (Mesh.bind (Mesh.new b) fresh p).2 =
        2 + (if b.uvs.isSome then 1 else 0) + (if b.normals.isSome then 1 else 0)
    ∧ createCount (Mesh.bind (Mesh.new b) fresh p).2 =
        2 + (if b.uvs.isSome then 1 else 0) + (if b.normals.isSome then 1 else 0)
    ∧ Mesh.prepare (Mesh.bind (Mesh.new b) fresh p).1 fresh =
        ((Mesh.bind (Mesh.new b) fresh p).1, [])
    ∧ (bindSeq (Mesh.bind (Mesh.new b) fresh p).1 fresh ps).1 =
        (Mesh.bind (Mesh.new b) fresh p).1
    ∧ uploadCount (bindSeq (Mesh.bind (Mesh.new b) fresh p).1 fresh ps).2 = 0
    ∧ createCount (bindSeq (Mesh.bind (Mesh.new b) fresh p).1 fresh ps).2 = 0 := by
  have hnb := mesh_new_bind b fresh p
  have hcounts := mesh_bind_buffer_counts b fresh
  have hstate : (Mesh.bind (Mesh.new b) fresh p).1.gl_state =
      some (mesh_bind_buffer b fresh).1 := by rw [hnb.1]
  have hseq := bindSeq_prepared fresh ps (Mesh.bind (Mesh.new b) fresh p).1
    (mesh_bind_buffer b fresh).1 hstate
  refine ⟨hstate, ?_, ?_, ?_, hseq.1, hseq.2.1, hseq.2.2⟩
  · rw [hnb.2.1, hcounts.1]
  · rw [hnb.2.2, hcounts.2]
  · unfold Mesh.prepare
    rw [hstate]

/-- C4: for two consecutive drawable entities of one pass — the context
already holds a bound program `p` and texture `t`, and the second entity's
material setup succeeds — the program-switch counter increments exactly once
iff the material's program differs from `p` by reference identity, and the
texture-switch counter increments exactly once iff its texture differs from
`t`; the context then records the material's program and texture as bound. -/
theorem c4_switch_counters (env : RenderEnv) (ctx : EngineContext) (m : Material)
    (p t : Nat) (hp : ctx.prog = some p) (ht : ctx.tex = some t)
    (hok : (Engine.setup_material env ctx m).ok = true) :
    ((Engine.setup_material env ctx m).ctx.switch_prog =
       (if m.program = p then ctx.switch_prog else u32succ ctx.switch_prog))
    ∧ ((Engine.setup_material env ctx m).ctx.switch_tex =
       (if m.texture = t then ctx.switch_tex else u32succ ctx.switch_tex))
    ∧ (Engine.setup_material env ctx m).ctx.prog = some m.program
    ∧ (Engine.setup_material env ctx m).ctx.tex = some m.texture := by
  have hprog := setup_switch_prog env ctx m
  have htex := setup_switch_tex_of_ok env ctx m hok
  have hneedp : ctx.need_prepare_program m.program = decide (p ≠ m.program) := by
    simp [EngineContext.need_prepare_program, hp]
  have hneedt : ctx.need_prepare_texture m.texture = decide (t ≠ m.texture) := by
    simp [EngineContext.need_prepare_texture, ht]
  refine ⟨?_, ?_, setup_ctx_prog env ctx m, setup_ctx_tex_of_ok env ctx m hok⟩
  · rw [hprog, hneedp]
    by_cases hq : m.program = p <;> simp [hq, Ne.symm]
  · rw [htex, hneedt]
    by_cases hq : m.texture = t <;> simp [hq, Ne.symm]

/-- Witness for C4 at a concrete consecutive pair: both resources differ, so
both counters increment exactly once. -/
theorem c4_witness :
    (Engine.setup_material envAllOk ctxBound matOther).ctx.switch_prog = 1
    ∧ (Engine.setup_material envAllOk ctxBound matOther).ctx.switch_tex = 1 := by
  have h := c4_switch_counters envAllOk ctxBound matOther 0 0 rfl rfl rfl
  constructor
  · rw [h.1]; decide
  · rw [h.2.1]; decide

/-- C2 counterexample: with a fresh context, a material whose texture fails
to bind makes `setup_material` return false — yet the bound program and the
program-switch counter, both observable by later entities, have changed. -/
theorem c2_counterexample :
    (Engine.setup_material envAllFail ctxFresh matFail).ok = false
    ∧ (Engine.setup_material envAllFail ctxFresh matFail).ctx.switch_prog ≠
        ctxFresh.switch_prog
    ∧ (Engine.setup_material envAllFail ctxFresh matFail).ctx.prog ≠ ctxFresh.prog := by
  refine ⟨rfl, ?_, ?_⟩ <;> decide

/-- C2 amended: an entity whose texture fails to bind is skipped for the
frame and the pass continues with the remaining entities; the failed setup
leaves the bound texture, the texture-switch counter, the mesh state and the
light untouched — but the bound program becomes the failed entity's program,
and if that program differed from the previously bound one, the
program-switch counter has already incremented. -/
theorem c2_amended (env : RenderEnv) (cam : Camera) (ctx : EngineContext)
    (ops : List GLOp) (o : GameObject) (m : Material) (cid : Nat)
    (hfm : o.findMaterial = some (m, cid))
    (hfail : (Engine.setup_material env ctx m).ok = false) :
    renderStep env cam ⟨ctx, ops⟩ (some o) =
      Except.ok ⟨(Engine.setup_material env ctx m).ctx,
                 ops ++ (Engine.setup_material env ctx m).ops⟩
    ∧ (∀ ws, renderLoop env cam ⟨ctx, ops⟩ (some o :: ws) =
        renderLoop env cam ⟨(Engine.setup_material env ctx m).ctx,
                            ops ++ (Engine.setup_material env ctx m).ops⟩ ws)
    ∧ (Engine.setup_material env ctx m).ctx.tex = ctx.tex
    ∧ (Engine.setup_material env ctx m).ctx.switch_tex = ctx.switch_tex
    ∧ (Engine.setup_material env ctx m).ctx.mesh = ctx.mesh
    ∧ (Engine.setup_material env ctx m).ctx.switch_mesh = ctx.switch_mesh
    ∧ (Engine.setup_material env ctx m).ctx.light = ctx.light
    ∧ (Engine.setup_material env ctx m).ctx.prog = some m.program
    ∧ (Engine.setup_material env ctx m).ctx.switch_prog =
        (if ctx.need_prepare_program m.program then u32succ ctx.switch_prog
         else ctx.switch_prog) := by
  have hstep : renderStep env cam ⟨ctx, ops⟩ (some o) =
      Except.ok ⟨(Engine.setup_material env ctx m).ctx,
                 ops ++ (Engine.setup_material env ctx m).ops⟩ := by
    unfold renderStep
    simp only [hfm, hfail, Bool.false_eq_true, if_false]
  refine ⟨hstep, ?_, (setup_ctx_tex_of_fail env ctx m hfail).1,
    (setup_ctx_tex_of_fail env ctx m hfail).2, setup_ctx_mesh env ctx m,
    setup_ctx_switch_mesh env ctx m, setup_ctx_light env ctx m,
    setup_ctx_prog env ctx m, setup_switch_prog env ctx m⟩
  intro ws
  show (match renderStep env cam ⟨ctx, ops⟩ (some o) with
        | Except.error p => Except.error p
        | Except.ok st1 => renderLoop env cam st1 ws) = _
  rw [hstep]

/-- Witness for C2 at a concrete failing entity. -/
theorem c2_amended_witness :
    renderStep envAllFail camW ⟨ctxFresh, []⟩ (some objMatOnly) =
      Except.ok ⟨(Engine.setup_material envAllFail ctxFresh matFail).ctx,
                 [] ++ (Engine.setup_material envAllFail ctxFresh matFail).ops⟩
    ∧ (Engine.setup_material envAllFail ctxFresh matFail).ctx.switch_tex =
        ctxFresh.switch_tex := by
  have h := c2_amended envAllFail camW ctxFresh [] objMatOnly matFail 5 rfl rfl
  exact ⟨h.1, h.2.2.2.1⟩

lemma modelMatrix_objMatOnly : modelMatrix objMatOnly = 1 := by
  show objMatOnly.transform * scalingMat objMatOnly.scale = 1
  rw [show objMatOnly.transform = 1 from rfl, show objMatOnly.scale = ⟨1, 1, 1⟩ from rfl,
    scalingMat_one, one_mul]

/-- C1 counterexample: an entity with a Material but no Mesh is not silently
skipped — once its material is set up, the pass panics unwrapping the absent
Mesh component, so traversal does not continue. -/
theorem c1_counterexample :
    Engine.render envAllOk engC1 = Except.error RenderPanic.noMeshComponent := by
  have hL : Engine.resolveLight [some objMatOnly] = some defaultLightComponent := rfl
  have hro : Engine.render_object camW
      (Engine.setup_material envAllOk
        ⟨none, none, none, some defaultLightComponent, 0, 0, 0⟩ ⟨0, 0⟩).ctx
      objMatOnly = Except.error RenderPanic.noMeshComponent := by
    apply render_object_no_mesh camW _ objMatOnly 0 defaultLightComponent
      defaultDirectionalLight 1 rfl rfl rfl rfl
    rw [modelMatrix_objMatOnly]
    exact tryInverse_one
  have hstep : renderStep envAllOk camW
      ⟨⟨none, none, none, some defaultLightComponent, 0, 0, 0⟩,
       (Engine.clear engC1.gl).2⟩ (some objMatOnly) =
      Except.error RenderPanic.noMeshComponent := by
    unfold renderStep
    simp only [show objMatOnly.findMaterial = some (⟨0, 0⟩, 5) from rfl]
    simp only [show (Engine.setup_material envAllOk
      ⟨none, none, none, some defaultLightComponent, 0, 0, 0⟩ ⟨0, 0⟩).ok = true
      from rfl, if_true]
    rw [hro]
  have hloop : renderLoop envAllOk camW
      ⟨⟨none, none, none, some defaultLightComponent, 0, 0, 0⟩,
       (Engine.clear engC1.gl).2⟩ [some objMatOnly] =
      Except.error RenderPanic.noMeshComponent := by
    unfold renderLoop
    rw [hstep]
  unfold Engine.render
  rw [show engC1.main_camera = some camW from rfl,
      show engC1.objects = [some objMatOnly] from rfl]
  dsimp only
  rw [hL, hloop]

/-- C1 amended: during traversal, an entity with a Mesh but no Material (or
with neither) is silently skipped — the step returns the state unchanged and
traversal continues. But an entity with a Material and no Mesh is not
skipped: when its material setup succeeds (with an invertible model matrix
and a directional frame light), the step panics unwrapping the missing Mesh
component, aborting the pass. -/
theorem c1_amended (env : RenderEnv) (cam : Camera) (st : PassState) (o : GameObject) :
    (o.findMaterial = none → renderStep env cam st (some o) = Except.ok st)
    ∧ (∀ (m : Material) (cid : Nat) (lc : Component) (dl : DirectionalLight) (N : Mat4),
        o.findMaterial = some (m, cid) →
        (Engine.setup_material env st.ctx m).ok = true →
        st.ctx.light = some lc →
        lc.data = ComponentData.light (Light.directional dl) →
        tryInverse (modelMatrix o) = some N →
        o.findMesh = none →
        renderStep env cam st (some o) = Except.error RenderPanic.noMeshComponent) := by
  constructor
  · intro hfm
    unfold renderStep
    simp only [hfm]
  · intro m cid lc dl N hfm hok hl hd hi hm
    have hro := render_object_no_mesh cam (Engine.setup_material env st.ctx m).ctx o
      m.program lc dl N (setup_ctx_prog env st.ctx m)
      (by rw [setup_ctx_light env st.ctx m]; exact hl) hd hm hi
    unfold renderStep
    simp only [hfm, hok, if_true]
    rw [hro]

/-- Witness for C1: a concrete Mesh-only entity is skipped; a concrete
Material-only entity panics on the missing Mesh. -/
theorem c1_amended_witness :
    renderStep envAllOk camW ⟨ctxLit, []⟩ (some objMeshOnly) = Except.ok ⟨ctxLit, []⟩
    ∧ renderStep envAllOk camW ⟨ctxLit, []⟩ (some objMatOnly) =
        Except.error RenderPanic.noMeshComponent := by
  refine ⟨(c1_amended envAllOk camW ⟨ctxLit, []⟩ objMeshOnly).1 rfl, ?_⟩
  exact (c1_amended envAllOk camW ⟨ctxLit, []⟩ objMatOnly).2 ⟨0, 0⟩ 5
    defaultLightComponent defaultDirectionalLight 1 rfl rfl rfl rfl
    (by rw [modelMatrix_objMatOnly]; exact tryInverse_one) rfl

/-- C3: when no live entity carries a Light component, the pass still
executes with the synthesized default directional light — direction
`(0.5, -1, 1)` normalized (which is `(1/3, -2/3, 2/3)`, a unit vector),
ambient `(0.2, 0.2, 0.2)`, diffuse `(0.5, 0.5, 0.5)`, specular `(1, 1, 1)` —
never panics for lack of a light, and every completed pass's frame context
carries exactly that default light. -/
theorem c3_default_light (env : RenderEnv) (e : Engine) (cam : Camera)
    (hc : e.main_camera = some cam)
    (hnl : Engine.findLightComponent e.objects = none) :
    Engine.resolveLight e.objects = some defaultLightComponent
    ∧ defaultLightComponent.data = ComponentData.light (Light.directional
        ⟨⟨1/3, -2/3, 2/3⟩, ⟨1/5, 1/5, 1/5⟩, ⟨1/2, 1/2, 1/2⟩, ⟨1, 1, 1⟩⟩)
    ∧ defaultDirectionalLight.direction = vnormalize ⟨1/2, -1, 1⟩
    ∧ normSq defaultDirectionalLight.direction = 1
    ∧ Engine.render env e ≠ Except.error RenderPanic.noLight
    ∧ (∀ r, Engine.render env e = Except.ok r →
        ∃ c, r.ctx = some c ∧ c.light = some defaultLightComponent) := by
  refine ⟨?_, ?_, rfl, ?_, ?_, ?_⟩
  · unfold Engine.resolveLight
    rw [hnl]
    rfl
  · show ComponentData.light (Light.directional defaultDirectionalLight) = _
    rw [show defaultDirectionalLight =
      ⟨vnormalize ⟨1/2, -1, 1⟩, ⟨1/5, 1/5, 1/5⟩, ⟨1/2, 1/2, 1/2⟩, ⟨1, 1, 1⟩⟩ from rfl,
      vnormalize_default]
  · show normSq (vnormalize ⟨1/2, -1, 1⟩) = 1
    rw [vnormalize_default]
    exact normSq_default_unit
  · unfold Engine.render
    rw [hc]
    dsimp only
    have hne := renderLoop_ne_noLight env cam e.objects
      ⟨⟨none, none, none, Engine.resolveLight e.objects, 0, 0, 0⟩,
       (Engine.clear e.gl).2⟩
      ((Engine.findLightComponent e.objects).getD defaultLightComponent) rfl
    cases hlr : renderLoop env cam
        ⟨⟨none, none, none, Engine.resolveLight e.objects, 0, 0, 0⟩,
         (Engine.clear e.gl).2⟩ e.objects with
    | error p =>
      rw [hlr] at hne
      have hp : p ≠ RenderPanic.noLight := fun hh => hne (by rw [hh])
      simp [hlr, hp]
    | ok st => simp [hlr]
  · intro r hr
    unfold Engine.render at hr
    rw [hc] at hr
    dsimp only at hr
    cases hlr : renderLoop env cam
        ⟨⟨none, none, none, Engine.resolveLight e.objects, 0, 0, 0⟩,
         (Engine.clear e.gl).2⟩ e.objects with
    | error p => rw [hlr] at hr; exact Except.noConfusion hr
    | ok st =>
      rw [hlr] at hr
      simp only [Except.ok.injEq] at hr
      subst hr
      refine ⟨st.ctx, rfl, ?_⟩
      have h1 := renderLoop_ok_light env cam e.objects
        ⟨⟨none, none, none, Engine.resolveLight e.objects, 0, 0, 0⟩,
         (Engine.clear e.gl).2⟩ st hlr
      rw [h1]
      show Engine.resolveLight e.objects = _
      unfold Engine.resolveLight
      rw [hnl]
      rfl

/-- Witness for C3 at a concrete lightless scene. -/
theorem c3_witness :
    Engine.resolveLight engC3.objects = some defaultLightComponent
    ∧ Engine.render envAllOk engC3 ≠ Except.error RenderPanic.noLight := by
  have h := c3_default_light envAllOk engC3 camW rfl rfl
  exact ⟨h.1, h.2.2.2.2.1⟩

/-- C6: after every completed render pass the tracked list is exactly the
live entities (every dead weak reference is pruned); with no camera set the
pass still completes (pruning is unconditional); and the pass never depends
on dead references — rendering the pre-filtered engine is literally the same
computation. -/
theorem c6_prune_dead (env : RenderEnv) (e : Engine) :
    (∀ r, Engine.render env e = Except.ok r →
       r.engine.objects = e.objects.filter Option.isSome
       ∧ Option.none ∉ r.engine.objects)
    ∧ (e.main_camera = none → ∃ r, Engine.render env e = Except.ok r)
    ∧ Engine.render env { e with objects := e.objects.filter Option.isSome } =
        Engine.render env e := by
  obtain ⟨g, mc, objs⟩ := e
  refine ⟨?_, ?_, ?_⟩
  · intro r hr
    unfold Engine.render at hr
    cases mc with
    | none =>
      simp only [Except.ok.injEq] at hr
      subst hr
      refine ⟨rfl, ?_⟩
      intro hmem
      rw [List.mem_filter] at hmem
      simpa using hmem.2
    | some cam =>
      dsimp only at hr
      cases hlr : renderLoop env cam
          ⟨⟨none, none, none, Engine.resolveLight objs, 0, 0, 0⟩,
           (Engine.clear g).2⟩ objs with
      | error p => rw [hlr] at hr; exact Except.noConfusion hr
      | ok st =>
        rw [hlr] at hr
        simp only [Except.ok.injEq] at hr
        subst hr
        refine ⟨rfl, ?_⟩
        intro hmem
        rw [List.mem_filter] at hmem
        simpa using hmem.2
  · intro h
    subst h
    exact ⟨_, rfl⟩
  · unfold Engine.render
    cases mc with
    | none =>
      dsimp only
      rw [List.filter_filter]
      simp
    | some cam =>
      dsimp only
      unfold Engine.resolveLight
      rw [findLightComponent_filter, renderLoop_filter]
      cases hlr : renderLoop env cam
          ⟨⟨none, none, none,
            some ((Engine.findLightComponent objs).getD defaultLightComponent),
            0, 0, 0⟩, (Engine.clear g).2⟩ objs with
      | error p => rfl
      | ok st =>
        dsimp only
        rw [List.filter_filter]
        simp

/-- Witness for C6: the dead reference is pruned by a camera-less pass. -/
theorem c6_witness :
    rC6.engine.objects = engC6.objects.filter Option.isSome
    ∧ Option.none ∉ rC6.engine.objects :=
  (c6_prune_dead envAllOk engC6).1 rC6 rfl

/-- C7: for a drawable entity, the `uNMatrix` uniform is set to the
transpose of a two-sided inverse of the model matrix (pose composed with
non-uniform scale); and when that matrix is singular (inversion fails iff
its determinant is zero), `render_object` aborts with a panic instead of
substituting a default. -/
theorem c7_normal_matrix (cam : Camera) (ctx : EngineContext) (o : GameObject)
    (p : Nat) (lc : Component) (dl : DirectionalLight) (mb : MeshBuffer) (cid : Nat)
    (hp : ctx.prog = some p) (hl : ctx.light = some lc)
    (hd : lc.data = ComponentData.light (Light.directional dl))
    (hm : o.findMesh = some (mb, cid)) :
    (tryInverse (modelMatrix o) = none ↔ (modelMatrix o).det = 0)
    ∧ (tryInverse (modelMatrix o) = none →
        Engine.render_object cam ctx o = Except.error RenderPanic.singularModelMatrix)
    ∧ (∀ N, tryInverse (modelMatrix o) = some N →
        modelMatrix o * N = 1 ∧ N * modelMatrix o = 1
        ∧ ∃ ctx2 ops, Engine.render_object cam ctx o = Except.ok (ctx2, ops)
            ∧ GLOp.setUniform p UName.uNMatrix (UniformValue.mat4 N.transpose) ∈ ops) := by
  refine ⟨tryInverse_eq_none_iff (modelMatrix o), ?_, ?_⟩
  · intro hi
    exact render_object_singular cam ctx o p hp hi
  · intro N hi
    have hmul := tryInverse_mul (modelMatrix o) N hi
    have hok := render_object_ok_explicit cam ctx o p lc dl mb cid N hp hl hd hm hi
    refine ⟨hmul.1, hmul.2, _, _, hok, ?_⟩
    simp

lemma modelMatrix_objC7 : modelMatrix objC7 = 1 := by
  show objC7.transform * scalingMat objC7.scale = 1
  rw [show objC7.transform = 1 from rfl, show objC7.scale = ⟨1, 1, 1⟩ from rfl,
    scalingMat_one, one_mul]

/-- Witness for C7 at the identity model matrix. -/
theorem c7_witness :
    modelMatrix objC7 * (1 : Mat4) = 1
    ∧ (1 : Mat4) * modelMatrix objC7 = 1
    ∧ (tryInverse (modelMatrix objC7) = none ↔ (modelMatrix objC7).det = 0) := by
  have h := c7_normal_matrix camW ctxC7 objC7 0 defaultLightComponent
    defaultDirectionalLight ⟨[], none, none, []⟩ 9 rfl rfl rfl rfl
  have hi : tryInverse (modelMatrix objC7) = some 1 := by
    rw [modelMatrix_objC7]
    exact tryInverse_one
  have h2 := h.2.2 1 hi
  exact ⟨h2.1, h2.2.1, h.1⟩

/-- C8: with no main camera the pass only clears — color buffer (with the
previously effective color), depth buffer, new clear color — creates no
frame context (so all switch counters stay zero), issues no program or
texture bind and no draw call, and still prunes dead references. -/
theorem c8_no_camera (env : RenderEnv) (e : Engine) (h : e.main_camera = none) :
    Engine.render env e = Except.ok
      ⟨{ e with gl := ⟨clear02⟩, objects := e.objects.filter Option.isSome }, none,
       [GLOp.clearColorBuffer e.gl.clearColor, GLOp.clearDepthBuffer,
        GLOp.setClearColor clear02]⟩
    ∧ (∀ r, Engine.render env e = Except.ok r → r.ctx = none
        ∧ (∀ n, GLOp.drawElements n ∉ r.ops)
        ∧ (∀ q, GLOp.useProgram q ∉ r.ops)
        ∧ (∀ t q b, GLOp.bindTexture t q b ∉ r.ops)) := by
  have heq : Engine.render env e = Except.ok
      ⟨{ e with gl := ⟨clear02⟩, objects := e.objects.filter Option.isSome }, none,
       [GLOp.clearColorBuffer e.gl.clearColor, GLOp.clearDepthBuffer,
        GLOp.setClearColor clear02]⟩ := by
    unfold Engine.render
    rw [h]
    rfl
  refine ⟨heq, ?_⟩
  intro r hr
  rw [heq] at hr
  simp only [Except.ok.injEq] at hr
  subst hr
  refine ⟨rfl, ?_, ?_, ?_⟩ <;> intros <;> simp

/-- Witness for C8 on a concrete camera-less engine. -/
theorem c8_witness :
    Engine.render envAllOk engC8 = Except.ok
      ⟨{ engC8 with gl := ⟨clear02⟩, objects := engC8.objects.filter Option.isSome },
       none,
       [GLOp.clearColorBuffer engC8.gl.clearColor, GLOp.clearDepthBuffer,
        GLOp.setClearColor clear02]⟩ :=
  (c8_no_camera envAllOk engC8 rfl).1

/-- C9: the synthesized default light is used only when no Light component
exists — when the scan finds one, the frame resolves exactly that component,
never the default; and if the resolved light is a Point light, rendering a
drawable entity panics extracting the directional payload. -/
theorem c9_point_light (env : RenderEnv) (e : Engine) (cam : Camera)
    (ctx : EngineContext) (o : GameObject) (c : Component) (pl : PointLight)
    (p : Nat) (N : Mat4) :
    (Engine.findLightComponent e.objects = some c →
      Engine.resolveLight e.objects = some c)
    ∧ (ctx.light = some c → c.data = ComponentData.light (Light.point pl) →
       ctx.prog = some p → tryInverse (modelMatrix o) = some N →
       Engine.render_object cam ctx o = Except.error RenderPanic.notDirectionalLight) := by
  constructor
  · intro h
    unfold Engine.resolveLight
    rw [h]
    rfl
  · intro hl hd hp hi
    exact render_object_point cam ctx o p c pl N hp hl hd hi

/-- Witness for C9: the Point light is resolved as-is, and rendering a
drawable entity under it panics. -/
theorem c9_witness :
    Engine.resolveLight engC9.objects = some compPL
    ∧ Engine.render_object camW ctxPL objMatOnly =
        Except.error RenderPanic.notDirectionalLight := by
  have h := c9_point_light envAllOk engC9 camW ctxPL objMatOnly compPL ⟨⟨0, 0, 0⟩⟩ 0 1
  exact ⟨h.1 rfl, h.2 rfl rfl rfl (by rw [modelMatrix_objMatOnly]; exact tryInverse_one)⟩

/-- C10: `Engine::clear` issues the color and depth clears before setting
the clear color to `(0.2, 0.2, 0.2, 1)`, so each frame clears with the
previously set color: the first frame after `Engine::new` clears with the
construction-time `(0.5, 0.5, 0.5, 1)`, and only the following frame clears
with `(0.2, 0.2, 0.2, 1)`. -/
theorem c10_clear_order (env : RenderEnv) (size : Nat × Nat) :
    (∀ g : GLState, Engine.clear g =
      (⟨clear02⟩, [GLOp.clearColorBuffer g.clearColor, GLOp.clearDepthBuffer,
                   GLOp.setClearColor clear02]))
    ∧ (Engine.new size).1.gl.clearColor = clear05
    ∧ (∀ r1, Engine.render env (Engine.new size).1 = Except.ok r1 →
        r1.ops.head? = some (GLOp.clearColorBuffer clear05)
        ∧ r1.engine.gl.clearColor = clear02
        ∧ (∀ r2, Engine.render env r1.engine = Except.ok r2 →
            r2.ops.head? = some (GLOp.clearColorBuffer clear02))) := by
  refine ⟨fun g => rfl, rfl, ?_⟩
  intro r1 h1
  have he1 : Engine.render env (Engine.new size).1 = Except.ok
      ⟨⟨⟨clear02⟩, none, []⟩, none,
       [GLOp.clearColorBuffer clear05, GLOp.clearDepthBuffer,
        GLOp.setClearColor clear02]⟩ := rfl
  rw [he1] at h1
  simp only [Except.ok.injEq] at h1
  subst h1
  refine ⟨rfl, rfl, ?_⟩
  intro r2 h2
  have he2 : Engine.render env
      (⟨⟨⟨clear02⟩, none, []⟩, none,
        [GLOp.clearColorBuffer clear05, GLOp.clearDepthBuffer,
         GLOp.setClearColor clear02]⟩ : RenderOk).engine = Except.ok
      ⟨⟨⟨clear02⟩, none, []⟩, none,
       [GLOp.clearColorBuffer clear02, GLOp.clearDepthBuffer,
        GLOp.setClearColor clear02]⟩ := rfl
  rw [he2] at h2
  simp only [Except.ok.injEq] at h2
  subst h2
  rfl

/-- Witness for C10: two consecutive frames from a fresh engine clear with
0.5-gray then 0.2-gray. -/
theorem c10_witness :
    (Engine.new (64, 64)).1.gl.clearColor = clear05
    ∧ rC10a.ops.head? = some (GLOp.clearColorBuffer clear05)
    ∧ rC10b.ops.head? = some (GLOp.clearColorBuffer clear02) := by
  have h := c10_clear_order envAllOk (64, 64)
  have h1 := h.2.2 rC10a rfl
  exact ⟨h.2.1, h1.1, h1.2.2 rC10b rfl⟩
